import Mathlib

set_option autoImplicit false

/-!
Verification of the supervised worker-bridge of the html-to-excel-converter
repository.  The definitions below are a shallow embedding of the JavaScript
sources: `src/src/index.js` (class HTMLToExcelConverter with convert /
convertToBuffer), the BaseConverter variant (`_runPythonScript`), the
python-shell variant with venv resolution (getPythonCommand,
checkPythonDependencies, convertHtmlToExcel) and its revised form with an
explicit cleanup function and a 30-second timer.

JavaScript values that cross the embedding boundary are modelled explicitly:
JSON documents by the inductive `Json` (with `JSON.parse` embedded as
`jsonParse`), arbitrary JS arguments by `JSVal`, and the filesystem touched by
`fs.writeFileSync` / `fs.unlinkSync` / `fs.existsSync` / `fs.readFileSync` by
an association list `FS`.
-/

/-- A JavaScript JSON value as produced by `JSON.parse`.  Numbers keep their
source token text: the bridge only ever inspects a number's truthiness, never
its magnitude, so the token is enough. -/
inductive Json where
  | null
  | bool (b : Bool)
  | num (raw : String)
  | str (s : String)
  | arr (elems : List Json)
  | obj (members : List (String × Json))

/-- JSON whitespace (the four characters JSON.parse skips between tokens). -/
def isJsonWs (c : Char) : Bool :=
  c = ' ' || c = '\t' || c = '\n' || c = '\r'

/-- Drop leading JSON whitespace. -/
def skipWs : List Char → List Char
  | [] => []
  | c :: cs => if isJsonWs c then skipWs cs else c :: cs

/-- The whitespace characters stripped by JavaScript `String.prototype.trim`
(the ASCII ones plus no-break space; the exotic unicode spaces are not
produced by the worker protocol). -/
def isJsSpace (c : Char) : Bool :=
  c = ' ' || c = '\t' || c = '\n' || c = '\r' || c = '\x0b' || c = '\x0c' || c = '\u00A0'

/-- JavaScript `s.trim()`. -/
def jsTrim (s : String) : String :=
  String.mk (((s.toList.dropWhile isJsSpace).reverse.dropWhile isJsSpace).reverse)

/-- The string is empty (JavaScript falsiness of a string). -/
def strIsEmpty (s : String) : Bool :=
  s.toList.isEmpty

/-- Split a character list on every occurrence of a separator, keeping empty
segments — the behavior of JavaScript `split`. -/
def splitOnChar (sep : Char) : List Char → List (List Char)
  | [] => [[]]
  | c :: rest =>
    let r := splitOnChar sep rest
    if c = sep then [] :: r
    else
      match r with
      | [] => [[c]]
      | g :: gs => (c :: g) :: gs

/-- JavaScript `s.split("\n")`. -/
def jsSplitLines (s : String) : List String :=
  (splitOnChar '\n' s.toList).map String.mk

/-- Value of a hexadecimal digit, if the character is one. -/
def hexVal (c : Char) : Option Nat :=
  if '0' ≤ c ∧ c ≤ '9' then some (c.toNat - '0'.toNat)
  else if 'a' ≤ c ∧ c ≤ 'f' then some (c.toNat - 'a'.toNat + 10)
  else if 'A' ≤ c ∧ c ≤ 'F' then some (c.toNat - 'A'.toNat + 10)
  else none

/-- Body of a JSON string literal, after the opening quote.  Returns the
decoded string and the remaining input past the closing quote. -/
def parseStringBody : List Char → List Char → Option (String × List Char)
  | [], _ => none
  | '"' :: rest, acc => some (String.mk acc.reverse, rest)
  | '\\' :: esc, acc =>
    match esc with
    | '"' :: r => parseStringBody r ('"' :: acc)
    | '\\' :: r => parseStringBody r ('\\' :: acc)
    | '/' :: r => parseStringBody r ('/' :: acc)
    | 'b' :: r => parseStringBody r ('\x08' :: acc)
    | 'f' :: r => parseStringBody r ('\x0c' :: acc)
    | 'n' :: r => parseStringBody r ('\n' :: acc)
    | 'r' :: r => parseStringBody r ('\r' :: acc)
    | 't' :: r => parseStringBody r ('\t' :: acc)
    | 'u' :: a :: b :: c :: d :: r =>
      match hexVal a, hexVal b, hexVal c, hexVal d with
      | some va, some vb, some vc, some vd =>
        parseStringBody r (Char.ofNat (((va * 16 + vb) * 16 + vc) * 16 + vd) :: acc)
      | _, _, _, _ => none
    | _ => none
  | c :: rest, acc => if c.toNat < 0x20 then none else parseStringBody rest (c :: acc)

/-- Longest digit run at the head of the input. -/
def spanDigits (cs : List Char) : List Char × List Char :=
  (cs.takeWhile Char.isDigit, cs.dropWhile Char.isDigit)

/-- Fractional and exponent tail of a JSON number token, given the characters
of the token so far. -/
def parseNumberTail (intPart : List Char) (cs : List Char) : Option (List Char × List Char) :=
  let (fracTok, cs1) :=
    match cs with
    | '.' :: d :: r =>
      if d.isDigit then
        let (ds, r2) := spanDigits r
        (['.', d] ++ ds, r2)
      else ([], cs)
    | _ => ([], cs)
  if fracTok.isEmpty && (match cs with | '.' :: _ => true | _ => false) then none
  else
    match cs1 with
    | e :: r =>
      if e = 'e' ∨ e = 'E' then
        let (sign, r1) :=
          match r with
          | '+' :: r2 => (['+'], r2)
          | '-' :: r2 => (['-'], r2)
          | _ => ([], r)
        match r1 with
        | d :: _ =>
          if d.isDigit then
            let (ds, r2) := spanDigits r1
            some (intPart ++ fracTok ++ [e] ++ sign ++ ds, r2)
          else none
        | [] => none
      else some (intPart ++ fracTok, cs1)
    | [] => some (intPart ++ fracTok, cs1)

/-- A JSON number token (sign, integer part, optional fraction and exponent),
returned as its source text. -/
def parseNumberToken (cs : List Char) : Option (String × List Char) :=
  let (sign, cs1) :=
    match cs with
    | '-' :: r => (['-'], r)
    | _ => ([], cs)
  match cs1 with
  | '0' :: r =>
    if (r.head?.map Char.isDigit).getD false then none
    else
      match parseNumberTail (sign ++ ['0']) r with
      | some (tok, rest) => some (String.mk tok, rest)
      | none => none
  | c :: r =>
    if c.isDigit then
      let (ds, r2) := spanDigits r
      match parseNumberTail (sign ++ [c] ++ ds) r2 with
      | some (tok, rest) => some (String.mk tok, rest)
      | none => none
    else none
  | [] => none

mutual

/-- One JSON value at the head of the input (whitespace already allowed). -/
def parseValue (fuel : Nat) (cs : List Char) : Option (Json × List Char) :=
  match fuel with
  | 0 => none
  | fuel + 1 =>
    match skipWs cs with
    | [] => none
    | c :: rest =>
      if c = '{' then parseMembers fuel rest true []
      else if c = '[' then parseElements fuel rest true []
      else if c = '"' then
        match parseStringBody rest [] with
        | some (s, r) => some (Json.str s, r)
        | none => none
      else
        match c :: rest with
        | 't' :: 'r' :: 'u' :: 'e' :: r => some (Json.bool true, r)
        | 'f' :: 'a' :: 'l' :: 's' :: 'e' :: r => some (Json.bool false, r)
        | 'n' :: 'u' :: 'l' :: 'l' :: r => some (Json.null, r)
        | cs' =>
          match parseNumberToken cs' with
          | some (tok, r) => some (Json.num tok, r)
          | none => none

/-- Members of a JSON object, after the opening brace.  `first` is true until
one member has been read. -/
def parseMembers (fuel : Nat) (cs : List Char) (first : Bool)
    (acc : List (String × Json)) : Option (Json × List Char) :=
  match fuel with
  | 0 => none
  | fuel + 1 =>
    match skipWs cs with
    | [] => none
    | c :: rest =>
      if c = '}' then some (Json.obj acc.reverse, rest)
      else
        let afterComma :=
          if first then some (c :: rest)
          else if c = ',' then some rest else none
        match afterComma with
        | none => none
        | some cs1 =>
          match skipWs cs1 with
          | '"' :: rest2 =>
            match parseStringBody rest2 [] with
            | none => none
            | some (key, r1) =>
              match skipWs r1 with
              | ':' :: r2 =>
                match parseValue fuel r2 with
                | none => none
                | some (v, r3) => parseMembers fuel r3 false ((key, v) :: acc)
              | _ => none
          | _ => none

/-- Elements of a JSON array, after the opening bracket. -/
def parseElements (fuel : Nat) (cs : List Char) (first : Bool)
    (acc : List Json) : Option (Json × List Char) :=
  match fuel with
  | 0 => none
  | fuel + 1 =>
    match skipWs cs with
    | [] => none
    | c :: rest =>
      if c = ']' then some (Json.arr acc.reverse, rest)
      else
        let afterComma :=
          if first then some (c :: rest)
          else if c = ',' then some rest else none
        match afterComma with
        | none => none
        | some cs1 =>
          match parseValue fuel cs1 with
          | none => none
          | some (v, r) => parseElements fuel r false (v :: acc)

end

/-- Embedding of JavaScript `JSON.parse`: the whole string must be one JSON
value (surrounding whitespace allowed); `none` models a thrown SyntaxError.
The fuel is an upper bound on recursion steps; every step of a successful
parse consumes at least one input character, so twice the length plus a
constant is always enough. -/
def jsonParse (s : String) : Option Json :=
  match parseValue (2 * s.length + 8) s.toList with
  | some (j, rest) => if (skipWs rest).isEmpty then some j else none
  | none => none

/-- A JSON number token denotes zero exactly when its mantissa has no nonzero
digit (the exponent cannot change that). -/
def numIsZero (raw : String) : Bool :=
  (raw.toList.takeWhile (fun c => c ≠ 'e' ∧ c ≠ 'E')).all (fun c => !c.isDigit || c = '0')

/-- JavaScript truthiness of a parsed JSON value. -/
def jsTruthy : Json → Bool
  | Json.null => false
  | Json.bool b => b
  | Json.num raw => !numIsZero raw
  | Json.str s => !strIsEmpty s
  | Json.arr _ => true
  | Json.obj _ => true

/-- JavaScript property access `j.key` on a parsed JSON value: defined only on
objects, later duplicate keys overriding earlier ones (as `JSON.parse` does);
`none` models `undefined`. -/
def getField (j : Json) (key : String) : Option Json :=
  match j with
  | Json.obj members =>
    members.foldl (fun acc kv => if kv.1 = key then some kv.2 else acc) none
  | _ => none

/-- `j.key !== undefined`. -/
def hasField (j : Json) (key : String) : Bool :=
  (getField j key).isSome

/-- `j.key` used as a condition: the property exists and is truthy. -/
def truthyField (j : Json) (key : String) : Bool :=
  match getField j key with
  | some v => jsTruthy v
  | none => false

/-- JavaScript string coercion `String(v)` of a parsed JSON value, as used by
`new Error(lastValidJson.error)`.  Arrays coerce via `join(",")` with null
elements becoming empty; number tokens are kept as their source text. -/
def jsToString : Json → String
  | Json.null => "null"
  | Json.bool b => cond b "true" "false"
  | Json.num raw => raw
  | Json.str s => s
  | Json.obj _ => "[object Object]"
  | Json.arr elems =>
    String.intercalate "," (elems.attach.map (fun e =>
      match e with
      | ⟨Json.null, _⟩ => ""
      | ⟨x, hx⟩ => jsToString x))
decreasing_by
  have h := List.sizeOf_lt_of_mem hx
  simp only [Json.arr.sizeOf_spec]
  omega

/-- One unit of the worker's line-delimited primary output, decoded the way
the end callback of `convert` / `convertToBuffer` in `src/src/index.js` does:
blank lines are skipped, the trimmed line is handed to `JSON.parse`, and a
parse failure yields nothing. -/
def decodeUnit (line : String) : Option Json :=
  let t := jsTrim line
  if strIsEmpty t then none else jsonParse t

/-- The condition `json && (json.success !== undefined || json.error)` from
`src/src/index.js`: a decoded unit is definitive when it is truthy and carries
an explicit success flag or a truthy error. -/
def isDefinitive (j : Json) : Bool :=
  jsTruthy j && (hasField j "success" || truthyField j "error")

/-- A unit is noise for the interpreter: it fails to decode, or decodes to a
record without a definitive signal. -/
def noiseUnit (line : String) : Bool :=
  match decodeUnit line with
  | none => true
  | some j => !isDefinitive j

/-- One step of the `for (const line of lines)` loop of the end callback in
`src/src/index.js`: a definitive decoded unit replaces the accumulator, any
other line leaves it unchanged. -/
def considerLine (acc : Option Json) (line : String) : Option Json :=
  let t := jsTrim line
  if strIsEmpty t then acc
  else
    match jsonParse t with
    | none => acc
    | some j => if isDefinitive j then some j else acc

/-- `lastValidJson` as computed by the end callbacks in `src/src/index.js`:
split the accumulated primary output into lines and keep the last definitive
decoded record. -/
def extractLastValidJson (pythonOutput : String) : Option Json :=
  (jsSplitLines (jsTrim pythonOutput)).foldl considerLine none

/-- Terminal outcome of one conversion call. -/
inductive ConvResult where
  | thrown (msg : String)
  | rejected (msg : String)
  | resolved (j : Json)

/-- The end callback shared by `convert` and `convertToBuffer` in
`src/src/index.js` (the two occurrences are textually identical): a
python-shell error rejects with the stderr capture appended; otherwise the
last definitive record decides, a truthy `error` field rejecting with that
value coerced to a string, and no definitive record rejecting with the
protocol-violation message. -/
def processPythonEnd (err : Option String) (pythonOutput pythonError : String) : ConvResult :=
  match err with
  | some m => ConvResult.rejected ("Python error: " ++ m ++ "\n" ++ pythonError)
  | none =>
    match extractLastValidJson pythonOutput with
    | none =>
      ConvResult.rejected
        ("No valid JSON response from Python\nOutput: " ++ pythonOutput ++
          "\nError: " ++ pythonError)
    | some j =>
      if truthyField j "error" then
        ConvResult.rejected (jsToString ((getField j "error").getD Json.null))
      else ConvResult.resolved j

/-- A JavaScript value handed to `convert` / `convertToBuffer` as an argument.
Number magnitude is irrelevant to the bridge, so an integer carrier is used. -/
inductive JSVal where
  | undef
  | null
  | bool (b : Bool)
  | num (n : Int)
  | str (s : String)
  | obj
deriving DecidableEq

/-- JavaScript truthiness of an argument value. -/
def jsTruthyV : JSVal → Bool
  | JSVal.undef => false
  | JSVal.null => false
  | JSVal.bool b => b
  | JSVal.num n => n ≠ 0
  | JSVal.str s => !strIsEmpty s
  | JSVal.obj => true

/-- The JavaScript `typeof` operator on an argument value. -/
def typeofV : JSVal → String
  | JSVal.undef => "undefined"
  | JSVal.null => "object"
  | JSVal.bool _ => "boolean"
  | JSVal.num _ => "number"
  | JSVal.str _ => "string"
  | JSVal.obj => "object"

/-- The string carried by a `JSVal.str`; only consulted after the bridge's
validation has established that the value is a string. -/
def strOfV : JSVal → String
  | JSVal.str s => s
  | _ => ""

/-- The argument `v` is a non-empty string. -/
def isNonEmptyStringV (v : JSVal) : Bool :=
  match v with
  | JSVal.str s => !strIsEmpty s
  | _ => false

/-- Options accepted by the `HTMLToExcelConverter` constructor in
`src/src/index.js`; `none` models an absent property. -/
structure ConverterOptions where
  maxChunkSize : Option Nat
  timeout : Option Nat
  maxBuffer : Option Nat
  debug : Bool

/-- JavaScript `options.x || default` for a numeric option: absent or zero
falls back to the default. -/
def orDefault (v : Option Nat) (d : Nat) : Nat :=
  match v with
  | none => d
  | some n => if n = 0 then d else n

/-- The converter state built by the constructor of `src/src/index.js`. -/
structure Converter where
  maxChunkSize : Nat
  timeout : Nat
  maxBuffer : Nat
  debug : Bool

/-- The constructor of `HTMLToExcelConverter` in `src/src/index.js`. -/
def mkConverter (o : ConverterOptions) : Converter :=
  { maxChunkSize := orDefault o.maxChunkSize (5 * 1024 * 1024)
    timeout := orDefault o.timeout (10 * 60 * 1000)
    maxBuffer := orDefault o.maxBuffer (50 * 1024 * 1024)
    debug := o.debug }

/-- The scratch filesystem touched by the bridge: an association of paths to
file contents. -/
def FS := List (String × String)

/-- `fs.existsSync`. -/
def fsExists (fs : FS) (p : String) : Bool :=
  fs.any (fun e => e.1 = p)

/-- `fs.readFileSync`, `none` modelling the thrown error on a missing file. -/
def fsRead (fs : FS) (p : String) : Option String :=
  (fs.find? (fun e => e.1 = p)).map (fun e => e.2)

/-- `fs.writeFileSync`. -/
def fsWrite (fs : FS) (p c : String) : FS :=
  (p, c) :: (fs.filter (fun e => e.1 ≠ p) : List (String × String))

/-- `fs.unlinkSync`. -/
def fsUnlink (fs : FS) (p : String) : FS :=
  (fs.filter (fun e => e.1 ≠ p) : List (String × String))

/-- Externally visible actions of a conversion call, in order: creating a
transfer file, spawning the worker script with its argument vector, writing a
payload to the worker's input stream. -/
inductive BridgeAction where
  | writeTemp (p content : String)
  | spawnScript (script : String) (args : List String)
  | send (payload : String)
deriving DecidableEq

/-- Whether a bridge action creates a transfer file. -/
def isWriteTemp : BridgeAction → Bool
  | BridgeAction.writeTemp _ _ => true
  | _ => false

/-- Hexadecimal digit character for `JSON.stringify` control escapes. -/
def hexDigitStr (n : Nat) : String :=
  String.singleton (if n < 10 then Char.ofNat ('0'.toNat + n) else Char.ofNat ('a'.toNat + n - 10))

/-- `JSON.stringify` escaping of one character. -/
def jsonEscapeChar (c : Char) : String :=
  if c = '"' then "\\\""
  else if c = '\\' then "\\\\"
  else if c = '\n' then "\\n"
  else if c = '\r' then "\\r"
  else if c = '\t' then "\\t"
  else if c = '\x08' then "\\b"
  else if c = '\x0c' then "\\f"
  else if c.toNat < 0x20 then "\\u00" ++ hexDigitStr (c.toNat / 16) ++ hexDigitStr (c.toNat % 16)
  else String.singleton c

/-- `JSON.stringify` of a string value. -/
def jsonQuote (s : String) : String :=
  "\"" ++ String.join (s.toList.map jsonEscapeChar) ++ "\""

/-- `JSON.stringify({ html: html, buffer: true })`, the payload that
`convertToBuffer` sends through the worker's input stream. -/
def stringifyBufferInput (html : String) : String :=
  "\x7b\"html\":" ++ jsonQuote html ++ ",\"buffer\":true\x7d"

/-- `convertToBuffer` of `src/src/index.js`, given the converter state, the
`html` argument, and the data reaching the end callback (python-shell error,
accumulated primary output, accumulated stderr).  Returns the outcome and the
bridge actions taken before the worker ran. -/
def convertToBufferRun (c : Converter) (html : JSVal) (err : Option String)
    (pythonOutput pythonError : String) : ConvResult × List BridgeAction :=
  if !jsTruthyV html || typeofV html != "string" then
    (ConvResult.thrown "HTML content must be a non-empty string", [])
  else
    (processPythonEnd err pythonOutput pythonError,
      [BridgeAction.spawnScript "converterv3.py" [],
        BridgeAction.send (stringifyBufferInput (strOfV html))])

/-- `convert` of `src/src/index.js`: validate both arguments, write the HTML
to a fresh temporary file, spawn the worker with the temp path and output
path, and in the end callback delete the temporary file before interpreting
the output.  `tempFile` is the random name drawn for the transfer artifact;
the result carries the outcome, the final filesystem, and the actions. -/
def convertRun (c : Converter) (html outputPath : JSVal) (tempFile : String)
    (fs0 : FS) (err : Option String) (pythonOutput pythonError : String) :
    ConvResult × FS × List BridgeAction :=
  if !jsTruthyV html || typeofV html != "string" then
    (ConvResult.thrown "HTML content must be a non-empty string", fs0, [])
  else if !jsTruthyV outputPath || typeofV outputPath != "string" then
    (ConvResult.thrown "Output path must be a non-empty string", fs0, [])
  else
    let fs1 := fsWrite fs0 tempFile (strOfV html)
    let acts := [BridgeAction.writeTemp tempFile (strOfV html),
      BridgeAction.spawnScript "html_to_excel.py" [tempFile, strOfV outputPath]]
    let fs2 := fsUnlink fs1 tempFile
    (processPythonEnd err pythonOutput pythonError, fs2, acts)

/-- The `close` handler of `_runPythonScript` in the BaseConverter variant:
a non-zero exit code rejects with the exit code and the captured stderr; on a
zero exit code the whole stdout capture is handed to `JSON.parse`, a parse
failure (or a `null` document, whose property access throws inside the same
try block) rejecting with the protocol-violation message, a record without a
truthy `success` rejecting with its `error` field or `"Unknown error"`. -/
def runPythonScriptClose (code : Int) (stdout stderrText : String) : Except String Json :=
  if code ≠ 0 then
    Except.error ("Python process exited with code " ++ toString code ++ "\n" ++ stderrText)
  else
    match jsonParse stdout with
    | none => Except.error "No valid JSON response from Python"
    | some r =>
      match r with
      | Json.null => Except.error "No valid JSON response from Python"
      | _ =>
        if truthyField r "success" then Except.ok r
        else
          Except.error
            (match getField r "error" with
             | some v => if jsTruthy v then jsToString v else "Unknown error"
             | none => "Unknown error")

/-- `path.join` of two segments, with the posix separator. -/
def pathJoin (a b : String) : String := a ++ "/" ++ b

/-- The interpreter path inside a configured virtual environment, as built by
`getPythonCommand` of the venv variant. -/
def venvPython (venvPath platform : String) : String :=
  if platform = "win32" then pathJoin (pathJoin venvPath "Scripts") "python.exe"
  else pathJoin (pathJoin venvPath "bin") "python"

/-- The platform-ordered candidate executables of `getPythonCommand`, with
the fallback list for unknown platforms. -/
def platformCommands (platform : String) : List String :=
  if platform = "darwin" then ["python3", "python"]
  else if platform = "linux" then ["python3", "python"]
  else if platform = "win32" then ["python", "py"]
  else ["python3", "python"]

/-- Read-only probes and process launches performed by the venv-variant
constructor and its helpers. -/
inductive ProbeAction where
  | versionProbe (cmd : String)
  | importProbe (pythonCmd dep : String)
  | spawnWorker (script : String)
deriving DecidableEq

/-- Whether a probe action launches a worker subprocess. -/
def isSpawnWorker : ProbeAction → Bool
  | ProbeAction.spawnWorker _ => true
  | _ => false

/-- The candidate loop of `getPythonCommand`: run `cmd --version` for each
candidate in order, the first clean exit winning; record every probe made. -/
def tryCommands (probeOk : String → Bool) : List String → List ProbeAction × Except String String
  | [] => ([], Except.error "Python is not installed or not accessible")
  | cmd :: rest =>
    if probeOk (cmd ++ " --version") then
      ([ProbeAction.versionProbe (cmd ++ " --version")], Except.ok cmd)
    else
      let (acts, r) := tryCommands probeOk rest
      (ProbeAction.versionProbe (cmd ++ " --version") :: acts, r)

/-- `getPythonCommand` of the venv variant: a configured venv path yields the
interpreter inside it immediately (no probe at all); otherwise the platform
candidates are probed in order.  `probeOk` tells which probe command lines
exit cleanly. -/
def getPythonCommandActions (venvPath : Option String) (platform : String)
    (probeOk : String → Bool) : List ProbeAction × Except String String :=
  match venvPath with
  | some v => ([], Except.ok (venvPython v platform))
  | none => tryCommands probeOk (platformCommands platform)

/-- The required worker-side libraries checked by `checkPythonDependencies`. -/
def pythonDependencies : List String := ["bs4", "pandas", "openpyxl", "cssutils"]

/-- JavaScript `Array.prototype.join(", ")`. -/
def joinComma : List String → String
  | [] => ""
  | [s] => s
  | s :: rest => s ++ ", " ++ joinComma rest

/-- The libraries whose import probe fails, in declaration order (the forEach
loop pushes every failing probe, never stopping at the first). -/
def missingDependencies (importOk : String → Bool) : List String :=
  pythonDependencies.filter (fun d => !importOk d)

/-- The error text thrown when some libraries are missing. -/
def depsErrorMessage (missing : List String) : String :=
  "Missing Python dependencies: " ++ joinComma missing ++
    ".\nPlease run: npm run install-python-deps"

/-- The import probes run by `checkPythonDependencies`: one per required
library, unconditionally. -/
def checkDepsActions (pythonCmd : String) : List ProbeAction :=
  pythonDependencies.map (fun d => ProbeAction.importProbe pythonCmd d)

/-- `checkPythonDependencies` of the venv variant: `some msg` models the
thrown error when at least one library is missing. -/
def checkPythonDependencies (importOk : String → Bool) : Option String :=
  let missing := missingDependencies importOk
  if missing.isEmpty then none else some (depsErrorMessage missing)

/-- The venv-variant constructor: resolve the runtime, then validate the
dependencies; either step throwing aborts construction.  The returned actions
are every probe performed — the constructor never launches a worker. -/
def constructorRun (venvPath : Option String) (platform : String)
    (probeOk importOk : String → Bool) : List ProbeAction × Except String Unit :=
  match getPythonCommandActions venvPath platform probeOk with
  | (acts, Except.error e) => (acts, Except.error e)
  | (acts, Except.ok cmd) =>
    let acts2 := acts ++ checkDepsActions cmd
    match checkPythonDependencies importOk with
    | some msg => (acts2, Except.error msg)
    | none => (acts2, Except.ok ())

/-- Delete a file if it exists (the guarded `unlinkSync` pattern of the venv
variant). -/
def deleteIfExists (fs : FS) (p : String) : FS :=
  if fsExists fs p then fsUnlink fs p else fs

/-- Outcome of the first venv-variant `convertHtmlToExcel` message handler. -/
inductive V1Outcome where
  | resolved (buf : String)
  | rejectedWorker (msg : String)
  | rejectedReadErr

/-- The `message` handler of the first venv-variant `convertHtmlToExcel`:
an `error` field rejects after deleting the output artifact; a `success`
field reads the output file (rejecting with the read error when it is
absent) and deletes it in the `finally` block; any other record is ignored. -/
def v1onMessage (fs : FS) (outputPath : String) (message : Json) :
    Option V1Outcome × FS :=
  if truthyField message "error" then
    (some (V1Outcome.rejectedWorker (jsToString ((getField message "error").getD Json.null))),
      deleteIfExists fs outputPath)
  else if truthyField message "success" then
    match fsRead fs outputPath with
    | some buf => (some (V1Outcome.resolved buf), fsUnlink fs outputPath)
    | none => (some V1Outcome.rejectedReadErr, fs)
  else (none, fs)

/-- Request state of the revised venv-variant `convertHtmlToExcel`: the
scratch filesystem, whether the 30-second timer is still armed, and whether
`terminate()` has been called on the worker. -/
structure V2State where
  fs : FS
  timerArmed : Bool
  terminated : Bool

/-- Outcome of the revised venv-variant `convertHtmlToExcel`. -/
inductive V2Outcome where
  | resolved (buf : String)
  | rejected (msg : String)
  | rejectedReadErr

/-- The `cleanup` closure of the revised venv variant: clear the timer,
delete the output artifact if present, terminate the worker.  It is called on
every exit path. -/
def v2cleanup (outputPath : String) (st : V2State) : V2State :=
  { fs := deleteIfExists st.fs outputPath, timerArmed := false, terminated := true }

/-- The failure message derived from the captured stderr on the no-success
close path: parse it as JSON and surface its `error` field, falling back to
the raw capture, or to fixed texts when empty.  A `null` document throws on
property access inside the try and falls back to the raw capture. -/
def v2errorFromOutput (errorOutput : String) : String :=
  if strIsEmpty errorOutput then "Conversion failed without error message"
  else
    match jsonParse errorOutput with
    | some j =>
      match j with
      | Json.null => errorOutput
      | _ =>
        match getField j "error" with
        | some v => if jsTruthy v then jsToString v else "Unknown error"
        | none => "Unknown error"
    | none => errorOutput

/-- The `close` handler of the revised venv variant: with a success marker
seen and the output artifact present, read it, clean up, and resolve; on any
other combination clean up and reject. -/
def v2onClose (outputPath : String) (hasSuccessMsg : Bool) (errorOutput : String)
    (st : V2State) : V2Outcome × V2State :=
  if hasSuccessMsg && fsExists st.fs outputPath then
    match fsRead st.fs outputPath with
    | some buf => (V2Outcome.resolved buf, v2cleanup outputPath st)
    | none => (V2Outcome.rejectedReadErr, v2cleanup outputPath st)
  else
    (V2Outcome.rejected (v2errorFromOutput errorOutput), v2cleanup outputPath st)

/-- The hard-coded delay of the revised venv variant's deadline timer. -/
def v2timeoutMillis : Nat := 30000

/-- The timer callback of the revised venv variant. -/
def v2onTimeout (outputPath : String) (st : V2State) : V2Outcome × V2State :=
  (V2Outcome.rejected "Conversion timeout after 30 seconds", v2cleanup outputPath st)

/-- The `error` handler of the revised venv variant. -/
def v2onShellError (outputPath errMsg : String) (st : V2State) : V2Outcome × V2State :=
  (V2Outcome.rejected errMsg, v2cleanup outputPath st)

/-- The synchronous catch block of the revised venv variant. -/
def v2onSetupError (outputPath errMsg : String) (st : V2State) : V2Outcome × V2State :=
  (V2Outcome.rejected errMsg, v2cleanup outputPath st)

/-- Events delivered to the promise executor of `convert` / `convertToBuffer`
in `src/src/index.js`: a primary-output line, a stderr chunk, or the
python-shell end signal carrying the optional process error. -/
inductive PyEvent where
  | message (s : String)
  | stderrData (s : String)
  | endSignal (err : Option String)
deriving DecidableEq

/-- Whether an event is the end signal (the worker completed or crashed). -/
def pyEventIsEnd : PyEvent → Bool
  | PyEvent.endSignal _ => true
  | _ => false

/-- Executor state of one `src/src/index.js` conversion call: the accumulated
output captures and the settlement, if any. -/
structure ShellRun where
  out : String
  errTxt : String
  settled : Option ConvResult

/-- Reaction of the `src/src/index.js` executor to one event, per the three
registered handlers: messages and non-blank stderr chunks accumulate, and the
end signal settles the promise through the end callback.  A settled promise
ignores further events. -/
def handleEvent (st : ShellRun) (e : PyEvent) : ShellRun :=
  match st.settled with
  | some _ => st
  | none =>
    match e with
    | PyEvent.message s => { st with out := st.out ++ s ++ "\n" }
    | PyEvent.stderrData s =>
      if strIsEmpty (jsTrim s) then st else { st with errTxt := st.errTxt ++ s ++ "\n" }
    | PyEvent.endSignal err =>
      { st with settled := some (processPythonEnd err st.out st.errTxt) }

/-- A whole delivery sequence against a fresh executor. -/
def runShellEvents (events : List PyEvent) : ShellRun :=
  events.foldl handleEvent { out := "", errTxt := "", settled := none }

/-- The deadline timers armed by `convert` / `convertToBuffer` in
`src/src/index.js`: neither method ever calls `setTimeout`, so the list is
empty whatever the converter's configured `timeout` value is — the option is
stored by the constructor and never consulted again. -/
def convertArmedTimeouts (c : Converter) : List Nat := []

/-! Helper lemmas shared by the claim theorems. -/

theorem jsToString_str (s : String) : jsToString (Json.str s) = s := by
  unfold jsToString
  rfl

theorem considerLine_noise (acc : Option Json) (m : String) (h : noiseUnit m = true) :
    considerLine acc m = acc := by
  unfold considerLine
  unfold noiseUnit decodeUnit at h
  by_cases he : strIsEmpty (jsTrim m) = true
  · simp [he]
  · simp only [he, if_false, Bool.false_eq_true, ite_false] at h ⊢
    cases hp : jsonParse (jsTrim m) with
    | none => simp
    | some j =>
      rw [hp] at h
      simp only [Bool.not_eq_true'] at h
      simp [h]

theorem considerLine_definitive (acc : Option Json) (m : String) (j : Json)
    (h1 : decodeUnit m = some j) (h2 : isDefinitive j = true) :
    considerLine acc m = some j := by
  unfold decodeUnit at h1
  by_cases he : strIsEmpty (jsTrim m) = true
  · simp [he] at h1
  · simp only [he, Bool.false_eq_true, ite_false] at h1
    unfold considerLine
    simp [he, h1, h2]

theorem foldl_considerLine_noise (post : List String) (acc : Option Json)
    (h : ∀ m ∈ post, noiseUnit m = true) :
    post.foldl considerLine acc = acc := by
  induction post generalizing acc with
  | nil => rfl
  | cons m rest ih =>
    rw [List.foldl_cons, considerLine_noise acc m (h m (by simp))]
    exact ih acc (fun m' hm' => h m' (by simp [hm']))

theorem fsExists_fsUnlink (fs : FS) (p : String) : fsExists (fsUnlink fs p) p = false := by
  simp only [fsExists, fsUnlink, List.any_eq_false]
  intro e he
  have h2 := (List.mem_filter.mp he).2
  simp only [decide_not, Bool.not_eq_true', decide_eq_false_iff_not] at h2
  simpa using h2

theorem fsExists_deleteIfExists (fs : FS) (p : String) :
    fsExists (deleteIfExists fs p) p = false := by
  unfold deleteIfExists
  by_cases h : fsExists fs p
  · simp [h, fsExists_fsUnlink]
  · simp only [Bool.not_eq_true] at h
    simp [h]

theorem validation_check_eq (v : JSVal) :
    (!jsTruthyV v || typeofV v != "string") = !(isNonEmptyStringV v) := by
  cases v <;> simp [jsTruthyV, typeofV, isNonEmptyStringV]

theorem joinComma_infix (l : List String) (s : String) (h : s ∈ l) :
    ∃ a b, joinComma l = a ++ (s ++ b) := by
  induction l with
  | nil => simp at h
  | cons x rest ih =>
    rcases List.mem_cons.mp h with hx | hr
    · subst hx
      cases rest with
      | nil => exact ⟨"", "", by simp [joinComma]⟩
      | cons y ys =>
        refine ⟨"", ", " ++ joinComma (y :: ys), ?_⟩
        simp [joinComma, String.append_assoc]
    · rcases ih hr with ⟨a, b, hab⟩
      cases rest with
      | nil => simp at hr
      | cons y ys =>
        refine ⟨x ++ ", " ++ a, b, ?_⟩
        simp [joinComma, hab, String.append_assoc]

theorem settled_none_of_no_end_from (evs : List PyEvent) (st : ShellRun)
    (hst : st.settled = none) (h : ∀ e ∈ evs, pyEventIsEnd e = false) :
    (evs.foldl handleEvent st).settled = none := by
  induction evs generalizing st with
  | nil => simpa
  | cons e rest ih =>
    have he := h e (by simp)
    have hstep : (handleEvent st e).settled = none := by
      unfold handleEvent
      rw [hst]
      cases e with
      | message s => simpa
      | stderrData s =>
        by_cases hs : strIsEmpty (jsTrim s) = true <;> simp [hs, hst]
      | endSignal err => simp [pyEventIsEnd] at he
    rw [List.foldl_cons]
    exact ih (handleEvent st e) hstep (fun e' he' => h e' (by simp [he']))

/-! Claim theorems. -/

/-- C1: interpretation splits the captured primary output into line-delimited
units, ignores units that fail to decode, and the last decoded unit carrying a
definitive success/failure indicator is authoritative; when that record has a
truthy error, the call rejects with the worker-reported message. -/
theorem C1_last_definitive_record_wins
    (out errTxt : String) (pre post : List String) (l : String) (j : Json)
    (hsplit : jsSplitLines (jsTrim out) = pre ++ l :: post)
    (hl : decodeUnit l = some j) (hdef : isDefinitive j = true)
    (hpost : ∀ m ∈ post, noiseUnit m = true) :
    extractLastValidJson out = some j ∧
      (truthyField j "error" = true →
        processPythonEnd none out errTxt =
          ConvResult.rejected (jsToString ((getField j "error").getD Json.null))) := by
  have hx : extractLastValidJson out = some j := by
    unfold extractLastValidJson
    rw [hsplit, List.foldl_append, List.foldl_cons,
      considerLine_definitive _ _ _ hl hdef]
    exact foldl_considerLine_noise post (some j) hpost
  refine ⟨hx, fun herr => ?_⟩
  unfold processPythonEnd
  rw [hx]
  simp [herr]

/-- C1 witness: a log line, then the record with success false and error "x",
then another log line — the call rejects with exactly "x". -/
theorem C1_witness :
    extractLastValidJson "log\n\x7b\"success\":false,\"error\":\"x\"\x7d\nlog2" =
        some (Json.obj [("success", Json.bool false), ("error", Json.str "x")]) ∧
      processPythonEnd none "log\n\x7b\"success\":false,\"error\":\"x\"\x7d\nlog2" "" =
        ConvResult.rejected "x" := by
  have h := C1_last_definitive_record_wins
    "log\n\x7b\"success\":false,\"error\":\"x\"\x7d\nlog2" ""
    ["log"] ["log2"] "\x7b\"success\":false,\"error\":\"x\"\x7d"
    (Json.obj [("success", Json.bool false), ("error", Json.str "x")])
    (by decide) rfl rfl (by decide)
  refine ⟨h.1, ?_⟩
  have h2 := h.2 rfl
  have h3 : jsToString ((getField
      (Json.obj [("success", Json.bool false), ("error", Json.str "x")]) "error").getD Json.null) =
      "x" := jsToString_str "x"
  rw [h3] at h2
  exact h2

/-- C9: when the last definitive record has success false but no truthy error
field, the end callback of `src/src/index.js` resolves with that record as if
the conversion succeeded — rejection is keyed on a truthy `error` field, not
on the success flag. -/
theorem C9_success_false_without_error_resolves
    (out errTxt : String) (j : Json)
    (h : extractLastValidJson out = some j)
    (hs : getField j "success" = some (Json.bool false))
    (he : truthyField j "error" = false) :
    processPythonEnd none out errTxt = ConvResult.resolved j := by
  unfold processPythonEnd
  rw [h]
  simp [he]

/-- C9 witness: worker output consisting of the single record with success
false and no error field resolves with that record. -/
theorem C9_witness :
    extractLastValidJson "\x7b\"success\":false\x7d" =
        some (Json.obj [("success", Json.bool false)]) ∧
      processPythonEnd none "\x7b\"success\":false\x7d" "" =
        ConvResult.resolved (Json.obj [("success", Json.bool false)]) :=
  ⟨rfl, C9_success_false_without_error_resolves "\x7b\"success\":false\x7d" ""
    (Json.obj [("success", Json.bool false)]) rfl rfl rfl⟩

theorem v2onClose_state (p : String) (hasS : Bool) (e : String) (st : V2State) :
    (v2onClose p hasS e st).2 = v2cleanup p st := by
  unfold v2onClose
  split
  · split <;> rfl
  · rfl

/-- C10: an html argument that is not a non-empty string makes both entry
points throw the fixed validation message before any action is taken (no
temporary file, no spawn, untouched filesystem); with a valid html argument,
an invalid output path makes `convert` throw its own validation message the
same way. -/
theorem C10_argument_validation
    (c : Converter) (html outputPath : JSVal) (tempFile : String) (fs0 : FS)
    (err : Option String) (out errTxt : String) :
    (isNonEmptyStringV html = false →
      convertRun c html outputPath tempFile fs0 err out errTxt =
          (ConvResult.thrown "HTML content must be a non-empty string", fs0, []) ∧
        convertToBufferRun c html err out errTxt =
          (ConvResult.thrown "HTML content must be a non-empty string", [])) ∧
    (isNonEmptyStringV html = true → isNonEmptyStringV outputPath = false →
      convertRun c html outputPath tempFile fs0 err out errTxt =
        (ConvResult.thrown "Output path must be a non-empty string", fs0, [])) := by
  constructor
  · intro h
    have hc : (!jsTruthyV html || typeofV html != "string") = true := by
      rw [validation_check_eq, h]
      rfl
    constructor
    · unfold convertRun
      simp [hc]
    · unfold convertToBufferRun
      simp [hc]
  · intro h1 h2
    have hc1 : (!jsTruthyV html || typeofV html != "string") = false := by
      rw [validation_check_eq, h1]
      rfl
    have hc2 : (!jsTruthyV outputPath || typeofV outputPath != "string") = true := by
      rw [validation_check_eq, h2]
      rfl
    unfold convertRun
    simp [hc1, hc2]

/-- C10 witness: `null` html, an empty-string html, and a numeric output path
each hit the corresponding validation throw with no action taken. -/
theorem C10_witness :
    isNonEmptyStringV JSVal.null = false ∧
      convertRun (mkConverter ⟨none, none, none, false⟩) JSVal.null (JSVal.str "out.xlsx")
          "tmp.html" ([] : FS) none "" "" =
        (ConvResult.thrown "HTML content must be a non-empty string", ([] : FS), []) ∧
      convertToBufferRun (mkConverter ⟨none, none, none, false⟩) (JSVal.str "") none "" "" =
        (ConvResult.thrown "HTML content must be a non-empty string", []) ∧
      convertRun (mkConverter ⟨none, none, none, false⟩) (JSVal.str "<p>hi</p>") (JSVal.num 3)
          "tmp.html" ([] : FS) none "" "" =
        (ConvResult.thrown "Output path must be a non-empty string", ([] : FS), []) := by
  refine ⟨rfl, ?_, ?_, ?_⟩
  · exact ((C10_argument_validation (mkConverter ⟨none, none, none, false⟩) JSVal.null
      (JSVal.str "out.xlsx") "tmp.html" ([] : FS) none "" "").1 rfl).1
  · exact ((C10_argument_validation (mkConverter ⟨none, none, none, false⟩) (JSVal.str "")
      JSVal.undef "x" ([] : FS) none "" "").1 rfl).2
  · exact (C10_argument_validation (mkConverter ⟨none, none, none, false⟩) (JSVal.str "<p>hi</p>")
      (JSVal.num 3) "tmp.html" ([] : FS) none "" "").2 rfl rfl

/-- C2: every transfer artifact is gone when the call's outcome is produced.
For `convert` of `src/src/index.js`, once validation passes, the temporary
input file is absent from the filesystem the end callback leaves behind, on
every path through it.  For the revised venv variant, the temporary output
file is absent after the close, timeout, shell-error and setup-error paths
alike. -/
theorem C2_transfer_artifact_deleted
    (c : Converter) (html outputPath : JSVal) (tempFile : String) (fs0 : FS)
    (err : Option String) (out errTxt : String)
    (h1 : isNonEmptyStringV html = true) (h2 : isNonEmptyStringV outputPath = true) :
    fsExists (convertRun c html outputPath tempFile fs0 err out errTxt).2.1 tempFile = false ∧
      (∀ (p : String) (hasS : Bool) (errOut : String) (st : V2State),
        fsExists (v2onClose p hasS errOut st).2.fs p = false) ∧
      (∀ (p : String) (st : V2State), fsExists (v2onTimeout p st).2.fs p = false) ∧
      (∀ (p errMsg : String) (st : V2State),
        fsExists (v2onShellError p errMsg st).2.fs p = false) ∧
      (∀ (p errMsg : String) (st : V2State),
        fsExists (v2onSetupError p errMsg st).2.fs p = false) := by
  have hc1 : (!jsTruthyV html || typeofV html != "string") = false := by
    rw [validation_check_eq, h1]
    rfl
  have hc2 : (!jsTruthyV outputPath || typeofV outputPath != "string") = false := by
    rw [validation_check_eq, h2]
    rfl
  refine ⟨?_, ?_, ?_, ?_, ?_⟩
  · unfold convertRun
    simp [hc1, hc2, fsExists_fsUnlink]
  · intro p hasS errOut st
    rw [v2onClose_state]
    simpa [v2cleanup] using fsExists_deleteIfExists st.fs p
  · intro p st
    simpa [v2onTimeout, v2cleanup] using fsExists_deleteIfExists st.fs p
  · intro p errMsg st
    simpa [v2onShellError, v2cleanup] using fsExists_deleteIfExists st.fs p
  · intro p errMsg st
    simpa [v2onSetupError, v2cleanup] using fsExists_deleteIfExists st.fs p

/-- C2 witness: a concrete successful `convert` run leaves no temporary input
file behind, and the revised venv variant's timeout path deletes an existing
output artifact. -/
theorem C2_witness :
    isNonEmptyStringV (JSVal.str "<p>x</p>") = true ∧
      fsExists (convertRun (mkConverter ⟨none, none, none, false⟩) (JSVal.str "<p>x</p>")
          (JSVal.str "out.xlsx") "tmp.html" ([] : FS) none
          "\x7b\"success\":true\x7d" "").2.1 "tmp.html" = false ∧
      fsExists (v2onTimeout "scratch.xlsx"
        ⟨[("scratch.xlsx", "bytes")], true, false⟩).2.fs "scratch.xlsx" = false := by
  have h := C2_transfer_artifact_deleted (mkConverter ⟨none, none, none, false⟩)
    (JSVal.str "<p>x</p>") (JSVal.str "out.xlsx") "tmp.html" ([] : FS) none
    "\x7b\"success\":true\x7d" "" rfl rfl
  exact ⟨rfl, h.1, h.2.2.1 "scratch.xlsx" ⟨[("scratch.xlsx", "bytes")], true, false⟩⟩

/-- C3 (code bug in `src/src/index.js`): the constructor stores the
configured timeout, but `convert` / `convertToBuffer` never arm a deadline
timer — so as long as the worker produces no end signal the promise stays
unsettled forever instead of rejecting at the configured deadline, and
nothing ever terminates the worker. -/
theorem C3_no_timeout_is_enforced :
    (∀ c : Converter, convertArmedTimeouts c = []) ∧
      (mkConverter ⟨none, some 1000, none, false⟩).timeout = 1000 ∧
      (∀ evs : List PyEvent, (∀ e ∈ evs, pyEventIsEnd e = false) →
        (runShellEvents evs).settled = none) := by
  refine ⟨fun c => rfl, rfl, fun evs h => ?_⟩
  exact settled_none_of_no_end_from evs { out := "", errTxt := "", settled := none } rfl h

/-- C3 witness: with a 1000 ms configured timeout and a worker that only logs
and never completes, no timer exists and the call never settles. -/
theorem C3_witness :
    convertArmedTimeouts (mkConverter ⟨none, some 1000, none, false⟩) = [] ∧
      (runShellEvents [PyEvent.message "processing", PyEvent.stderrData "still working"]).settled =
        none := by
  have h := C3_no_timeout_is_enforced
  exact ⟨h.1 (mkConverter ⟨none, some 1000, none, false⟩),
    h.2.2 [PyEvent.message "processing", PyEvent.stderrData "still working"] (by decide)⟩

/-- C4: when no structurally valid definitive record is captured, a non-zero
exit code rejects with a crash message carrying the captured stderr text, a
zero exit code rejects with the protocol-violation message, and a resolved
outcome can only arise from a zero exit code with a record whose success flag
is truthy — the absence of a record is never treated as success.  Stated for
the BaseConverter close handler and the `src/src/index.js` end callback. -/
theorem C4_no_record_never_success :
    (∀ (code : Int) (stdout stderrText : String), code ≠ 0 →
      runPythonScriptClose code stdout stderrText =
        Except.error ("Python process exited with code " ++ toString code ++ "\n" ++ stderrText)) ∧
      (∀ stdout stderrText : String, jsonParse stdout = none →
        runPythonScriptClose 0 stdout stderrText =
          Except.error "No valid JSON response from Python") ∧
      (∀ (code : Int) (stdout stderrText : String) (j : Json),
        runPythonScriptClose code stdout stderrText = Except.ok j →
          code = 0 ∧ truthyField j "success" = true) ∧
      (∀ errMsg out errTxt : String,
        processPythonEnd (some errMsg) out errTxt =
          ConvResult.rejected ("Python error: " ++ errMsg ++ "\n" ++ errTxt)) ∧
      (∀ out errTxt : String, extractLastValidJson out = none →
        processPythonEnd none out errTxt =
          ConvResult.rejected ("No valid JSON response from Python\nOutput: " ++ out ++
            "\nError: " ++ errTxt)) := by
  refine ⟨?_, ?_, ?_, ?_, ?_⟩
  · intro code stdout stderrText h
    unfold runPythonScriptClose
    simp [h]
  · intro stdout stderrText h
    unfold runPythonScriptClose
    simp [h]
  · intro code stdout stderrText j h
    unfold runPythonScriptClose at h
    by_cases hc : code = 0
    · subst hc
      refine ⟨rfl, ?_⟩
      simp only [ne_eq, not_true_eq_false, if_false, reduceIte] at h
      cases hp : jsonParse stdout with
      | none => rw [hp] at h; exact absurd h (by simp)
      | some r =>
        rw [hp] at h
        cases r with
        | null => exact absurd h (by simp)
        | bool b =>
          by_cases hs : truthyField (Json.bool b) "success" = true
          · simp only [hs, if_true] at h
            cases h
            exact hs
          · simp only [hs, Bool.false_eq_true, if_false] at h
            simp only [Bool.not_eq_true] at hs
            simp [hs] at h
        | num raw =>
          by_cases hs : truthyField (Json.num raw) "success" = true
          · simp only [hs, if_true] at h
            cases h
            exact hs
          · simp only [Bool.not_eq_true] at hs
            simp [hs] at h
        | str s =>
          by_cases hs : truthyField (Json.str s) "success" = true
          · simp only [hs, if_true] at h
            cases h
            exact hs
          · simp only [Bool.not_eq_true] at hs
            simp [hs] at h
        | arr elems =>
          by_cases hs : truthyField (Json.arr elems) "success" = true
          · simp only [hs, if_true] at h
            cases h
            exact hs
          · simp only [Bool.not_eq_true] at hs
            simp [hs] at h
        | obj members =>
          by_cases hs : truthyField (Json.obj members) "success" = true
          · simp only [hs, if_true] at h
            cases h
            exact hs
          · simp only [Bool.not_eq_true] at hs
            simp [hs] at h
    · simp [hc] at h
  · intro errMsg out errTxt
    rfl
  · intro out errTxt h
    unfold processPythonEnd
    rw [h]

/-- C4 witness: exit code 1 with stderr "ParseError: bad markup" produces the
crash rejection containing that text; a zero exit with unparsable output or
with no definitive line produces the protocol-violation rejection. -/
theorem C4_witness :
    runPythonScriptClose 1 "" "ParseError: bad markup" =
        Except.error ("Python process exited with code " ++ toString (1 : Int) ++ "\n" ++
          "ParseError: bad markup") ∧
      runPythonScriptClose 0 "crash log" "" =
        Except.error "No valid JSON response from Python" ∧
      processPythonEnd (some "exited with code 1") "" "ParseError: bad markup\n" =
        ConvResult.rejected ("Python error: " ++ "exited with code 1" ++ "\n" ++
          "ParseError: bad markup\n") ∧
      processPythonEnd none "starting up\n" "" =
        ConvResult.rejected ("No valid JSON response from Python\nOutput: " ++ "starting up\n" ++
          "\nError: " ++ "") := by
  have h := C4_no_record_never_success
  exact ⟨h.1 1 "" "ParseError: bad markup" (by decide),
    h.2.1 "crash log" "" rfl,
    h.2.2.2.1 "exited with code 1" "" "ParseError: bad markup\n",
    h.2.2.2.2 "starting up\n" "" rfl⟩

/-- C6 counterexample: with a configured venv path and a probe that fails on
every command line, resolution still accepts the venv interpreter — and
performs no version probe at all — contradicting the claim that the
probe-acceptance rule applies to every candidate including the venv path. -/
theorem C6_counterexample :
    getPythonCommandActions (some "/opt/venv") "linux" (fun _ => false) =
        ([], Except.ok "/opt/venv/bin/python") ∧
      (fun (_ : String) => false) (venvPython "/opt/venv" "linux" ++ " --version") = false := by
  exact ⟨rfl, rfl⟩

/-- C6 amended: a configured venv path short-circuits resolution — the venv
interpreter path is returned with no probe whatsoever; only without a venv
are the system candidates probed, in the deterministic platform order
(python3 then python on linux and darwin, python then py on win32), the first
clean probe winning and exhaustion failing with the runtime-not-found
error. -/
theorem C6_amended_resolution_rules :
    (∀ (v platform : String) (probeOk : String → Bool),
      getPythonCommandActions (some v) platform probeOk =
        ([], Except.ok (venvPython v platform))) ∧
      (∀ probeOk : String → Bool,
        (getPythonCommandActions none "linux" probeOk).2 =
          (if probeOk "python3 --version" then Except.ok "python3"
           else if probeOk "python --version" then Except.ok "python"
           else Except.error "Python is not installed or not accessible")) ∧
      (∀ probeOk : String → Bool,
        (getPythonCommandActions none "darwin" probeOk).2 =
          (if probeOk "python3 --version" then Except.ok "python3"
           else if probeOk "python --version" then Except.ok "python"
           else Except.error "Python is not installed or not accessible")) ∧
      (∀ probeOk : String → Bool,
        (getPythonCommandActions none "win32" probeOk).2 =
          (if probeOk "python --version" then Except.ok "python"
           else if probeOk "py --version" then Except.ok "py"
           else Except.error "Python is not installed or not accessible")) := by
  refine ⟨fun v platform probeOk => rfl, ?_, ?_, ?_⟩ <;>
    intro probeOk <;>
    by_cases h1 : probeOk "python3 --version" <;>
    by_cases h2 : probeOk "python --version" <;>
    by_cases h3 : probeOk "py --version" <;>
    simp [getPythonCommandActions, tryCommands, platformCommands, h1, h2, h3]

theorem tryCommands_no_spawn (probeOk : String → Bool) (cmds : List String) :
    ∀ a ∈ (tryCommands probeOk cmds).1, isSpawnWorker a = false := by
  induction cmds with
  | nil => intro a ha; simp [tryCommands] at ha
  | cons cmd rest ih =>
    intro a ha
    unfold tryCommands at ha
    by_cases h : probeOk (cmd ++ " --version")
    · simp only [h, if_true, List.mem_singleton] at ha
      simp [ha, isSpawnWorker]
    · simp only [h, Bool.false_eq_true, if_false, List.mem_cons] at ha
      rcases ha with ha | ha
      · simp [ha, isSpawnWorker]
      · exact ih a ha

theorem getPythonCommandActions_no_spawn (venvPath : Option String) (platform : String)
    (probeOk : String → Bool) :
    ∀ a ∈ (getPythonCommandActions venvPath platform probeOk).1, isSpawnWorker a = false := by
  cases venvPath with
  | none => exact tryCommands_no_spawn probeOk (platformCommands platform)
  | some v => intro a ha; simp [getPythonCommandActions] at ha

/-- C5: when the resolved runtime lacks required libraries, the dependency
check probes every required library without short-circuiting, the constructor
fails with one error enumerating all missing names (each missing name occurs
in the message), and no worker subprocess is ever launched. -/
theorem C5_missing_deps_enumerated
    (venvPath : Option String) (platform : String) (probeOk importOk : String → Bool)
    (acts0 : List ProbeAction) (cmd d : String)
    (hpair : getPythonCommandActions venvPath platform probeOk = (acts0, Except.ok cmd))
    (hd : d ∈ pythonDependencies) (hmiss : importOk d = false) :
    (constructorRun venvPath platform probeOk importOk).2 =
        Except.error (depsErrorMessage (missingDependencies importOk)) ∧
      (∀ d', d' ∈ pythonDependencies → importOk d' = false →
        d' ∈ missingDependencies importOk ∧
          ∃ a b, depsErrorMessage (missingDependencies importOk) = a ++ (d' ++ b)) ∧
      (constructorRun venvPath platform probeOk importOk).1 = acts0 ++ checkDepsActions cmd ∧
      ((constructorRun venvPath platform probeOk importOk).1.all
        (fun a => !isSpawnWorker a)) = true := by
  have hmem : d ∈ missingDependencies importOk := by
    unfold missingDependencies
    exact List.mem_filter.mpr ⟨hd, by simp [hmiss]⟩
  have hne : (missingDependencies importOk).isEmpty = false := by
    cases hml : missingDependencies importOk with
    | nil => rw [hml] at hmem; simp at hmem
    | cons x xs => simp
  have hcheck : checkPythonDependencies importOk =
      some (depsErrorMessage (missingDependencies importOk)) := by
    unfold checkPythonDependencies
    simp [hne]
  have hrun : constructorRun venvPath platform probeOk importOk =
      (acts0 ++ checkDepsActions cmd,
        Except.error (depsErrorMessage (missingDependencies importOk))) := by
    unfold constructorRun
    rw [hpair, hcheck]
  refine ⟨by rw [hrun], ?_, by rw [hrun], ?_⟩
  · intro d' hd' hmiss'
    have hmem' : d' ∈ missingDependencies importOk := by
      unfold missingDependencies
      exact List.mem_filter.mpr ⟨hd', by simp [hmiss']⟩
    refine ⟨hmem', ?_⟩
    rcases joinComma_infix (missingDependencies importOk) d' hmem' with ⟨a, b, hab⟩
    refine ⟨"Missing Python dependencies: " ++ a,
      b ++ ".\nPlease run: npm run install-python-deps", ?_⟩
    unfold depsErrorMessage
    rw [hab]
    simp only [String.append_assoc]
  · rw [hrun]
    rw [List.all_eq_true]
    intro a ha
    rcases List.mem_append.mp ha with h0 | h1
    · simp [getPythonCommandActions_no_spawn venvPath platform probeOk a (by rw [hpair]; exact h0)]
    · rcases List.mem_map.mp h1 with ⟨dep, _, hdep⟩
      simp [← hdep, isSpawnWorker]

/-- C5 witness: with python3 resolving and only pandas missing, the
constructor fails with the enumerated message and performs no worker
launch. -/
theorem C5_witness :
    getPythonCommandActions none "linux" (fun _ => true) =
        ([ProbeAction.versionProbe "python3 --version"], Except.ok "python3") ∧
      "pandas" ∈ pythonDependencies ∧
      (fun d => d != "pandas") "pandas" = false ∧
      (constructorRun none "linux" (fun _ => true) (fun d => d != "pandas")).2 =
        Except.error (depsErrorMessage (missingDependencies (fun d => d != "pandas"))) ∧
      ((constructorRun none "linux" (fun _ => true) (fun d => d != "pandas")).1.all
        (fun a => !isSpawnWorker a)) = true := by
  have h := C5_missing_deps_enumerated none "linux" (fun _ => true) (fun d => d != "pandas")
    [ProbeAction.versionProbe "python3 --version"] "python3" "pandas" rfl (by decide) (by decide)
  exact ⟨rfl, by decide, by decide, h.1, h.2.2.2⟩

/-- C7 counterexample: with the transfer threshold configured to one byte, a
sixteen-byte payload is still sent inline through the worker's input stream
by `convertToBuffer`, and no transfer file is ever written — contradicting
the claim that payloads at or above the threshold must go through a file. -/
theorem C7_counterexample :
    (mkConverter ⟨some 1, none, none, false⟩).maxChunkSize ≤ "<table>r</table>".length ∧
      ((convertToBufferRun (mkConverter ⟨some 1, none, none, false⟩)
          (JSVal.str "<table>r</table>") none "" "").2.all (fun a => !isWriteTemp a)) = true ∧
      ((convertToBufferRun (mkConverter ⟨some 1, none, none, false⟩)
          (JSVal.str "<table>r</table>") none "" "").2.contains
        (BridgeAction.send (stringifyBufferInput "<table>r</table>"))) = true := by
  refine ⟨by decide, by decide, by decide⟩

/-- C7 amended: the configured `maxChunkSize` is never consulted.  For every
converter state, `convertToBuffer` always passes the whole payload through
the worker's input stream and never creates a transfer file, while `convert`
always writes the payload to a temporary file and hands the worker only the
two paths — in both cases independently of the payload size. -/
theorem C7_amended_transfer_policy
    (c : Converter) (html outputPath tempFile : String) (fs0 : FS)
    (err : Option String) (out errTxt : String)
    (hh : strIsEmpty html = false) (ho : strIsEmpty outputPath = false) :
    (convertToBufferRun c (JSVal.str html) err out errTxt).2 =
        [BridgeAction.spawnScript "converterv3.py" [],
          BridgeAction.send (stringifyBufferInput html)] ∧
      (convertRun c (JSVal.str html) (JSVal.str outputPath) tempFile fs0 err out errTxt).2.2 =
        [BridgeAction.writeTemp tempFile html,
          BridgeAction.spawnScript "html_to_excel.py" [tempFile, outputPath]] := by
  have h1 : (!jsTruthyV (JSVal.str html) || typeofV (JSVal.str html) != "string") = false := by
    rw [validation_check_eq]
    simp [isNonEmptyStringV, hh]
  have h2 : (!jsTruthyV (JSVal.str outputPath) ||
      typeofV (JSVal.str outputPath) != "string") = false := by
    rw [validation_check_eq]
    simp [isNonEmptyStringV, ho]
  constructor
  · unfold convertToBufferRun
    simp [h1, strOfV]
  · unfold convertRun
    simp [h1, h2, strOfV]

/-- C7 amended witness: a concrete payload goes inline for `convertToBuffer`
and through a temp file for `convert`. -/
theorem C7_amended_witness :
    strIsEmpty "<p>a</p>" = false ∧
      (convertToBufferRun (mkConverter ⟨none, none, none, false⟩) (JSVal.str "<p>a</p>")
          none "" "").2 =
        [BridgeAction.spawnScript "converterv3.py" [],
          BridgeAction.send (stringifyBufferInput "<p>a</p>")] ∧
      (convertRun (mkConverter ⟨none, none, none, false⟩) (JSVal.str "<p>a</p>")
          (JSVal.str "out.xlsx") "tmp.html" ([] : FS) none "" "").2.2 =
        [BridgeAction.writeTemp "tmp.html" "<p>a</p>",
          BridgeAction.spawnScript "html_to_excel.py" ["tmp.html", "out.xlsx"]] := by
  have h := C7_amended_transfer_policy (mkConverter ⟨none, none, none, false⟩)
    "<p>a</p>" "out.xlsx" "tmp.html" ([] : FS) none "" "" rfl rfl
  exact ⟨rfl, h.1, h.2⟩

/-- C8: a success record only resolves when the result artifact can be read.
In the first venv variant's message handler, a success record with the file
present resolves with exactly its bytes and deletes it, while a missing file
rejects with the read error; in the revised variant's close handler, a
success marker with a missing file takes the rejection path.  A success
indicator with a missing artifact is never surfaced as success. -/
theorem C8_success_requires_artifact
    (fs : FS) (outputPath : String) (message : Json)
    (he : truthyField message "error" = false) (hs : truthyField message "success" = true) :
    (∀ buf, fsRead fs outputPath = some buf →
      v1onMessage fs outputPath message =
        (some (V1Outcome.resolved buf), fsUnlink fs outputPath)) ∧
      (fsRead fs outputPath = none →
        v1onMessage fs outputPath message = (some V1Outcome.rejectedReadErr, fs)) ∧
      (∀ (st : V2State) (errorOutput : String), fsExists st.fs outputPath = false →
        v2onClose outputPath true errorOutput st =
          (V2Outcome.rejected (v2errorFromOutput errorOutput), v2cleanup outputPath st)) := by
  refine ⟨?_, ?_, ?_⟩
  · intro buf hbuf
    unfold v1onMessage
    simp [he, hs, hbuf]
  · intro hnone
    unfold v1onMessage
    simp [he, hs, hnone]
  · intro st errorOutput hex
    unfold v2onClose
    simp [hex]

/-- C8 witness: the record with success true resolves with the artifact's
bytes when present, rejects when the artifact is absent (both variants). -/
theorem C8_witness :
    truthyField (Json.obj [("success", Json.bool true)]) "error" = false ∧
      truthyField (Json.obj [("success", Json.bool true)]) "success" = true ∧
      v1onMessage [("out.xlsx", "XLSXBYTES")] "out.xlsx"
          (Json.obj [("success", Json.bool true)]) =
        (some (V1Outcome.resolved "XLSXBYTES"), fsUnlink [("out.xlsx", "XLSXBYTES")] "out.xlsx") ∧
      v1onMessage ([] : FS) "out.xlsx" (Json.obj [("success", Json.bool true)]) =
        (some V1Outcome.rejectedReadErr, ([] : FS)) ∧
      v2onClose "out.xlsx" true "" ⟨([] : FS), true, false⟩ =
        (V2Outcome.rejected (v2errorFromOutput ""), v2cleanup "out.xlsx" ⟨([] : FS), true, false⟩) := by
  have h1 := C8_success_requires_artifact [("out.xlsx", "XLSXBYTES")] "out.xlsx"
    (Json.obj [("success", Json.bool true)]) rfl rfl
  have h2 := C8_success_requires_artifact ([] : FS) "out.xlsx"
    (Json.obj [("success", Json.bool true)]) rfl rfl
  exact ⟨rfl, rfl, h1.1 "XLSXBYTES" rfl, h2.2.1 rfl,
    h2.2.2 ⟨([] : FS), true, false⟩ "" rfl⟩
